import Mathlib

/-!
Verification development for the Melbourne property-data repository
(an Express server `server.js` plus batch pipeline scripts under `scripts/`).

The JavaScript source is shallowly embedded: each relevant source function
is translated into an executable Lean definition over `List Char` / `String`
data, with JS regular expressions realised as hand-rolled left-to-right
scanners that implement the exact leftmost-match semantics of the concrete
patterns appearing in the source.  Machine floats only occur in the source
at `Math.round(parseFloat(d) * 1e6)` (exact on the single-digit inputs
involved, modelled as exact integer arithmetic) and inside the haversine
distance (modelled as an abstract distance parameter, since the claims under
study supply its value).
-/

namespace MelbProps

/-- JS `\d` character class (ASCII digits; the source patterns are ASCII). -/
def isDigitChar (c : Char) : Bool := '0' ≤ c && c ≤ '9'

/-- JS `\s` character class restricted to the whitespace characters that can
occur in the scraped ASCII/Latin HTML handled by the source: space, tab,
newline, carriage return, vertical tab, form feed. -/
def isSpaceJS (c : Char) : Bool :=
  c = ' ' || c = '\t' || c = '\n' || c = '\r' || c = '\x0b' || c = '\x0c'

/-- Numeric value of a decimal digit character. -/
def digitVal (c : Char) : Nat := c.toNat - '0'.toNat

/-- Value of a digit run, as read by JS `parseInt` on an all-digit string. -/
def digitsToNat (cs : List Char) : Nat :=
  cs.foldl (fun acc c => acc * 10 + digitVal c) 0

/-- JS `parseInt(s, 10)`: skip leading whitespace, optional sign, then a
(non-empty) digit run; `NaN` (here `none`) if no digit is found. -/
def parseIntJS (cs : List Char) : Option Int :=
  let cs1 := cs.dropWhile isSpaceJS
  match cs1 with
  | '-' :: t =>
      let ds := t.takeWhile isDigitChar
      if ds.isEmpty then none else some (-(digitsToNat ds : Int))
  | '+' :: t =>
      let ds := t.takeWhile isDigitChar
      if ds.isEmpty then none else some (digitsToNat ds : Int)
  | t =>
      let ds := t.takeWhile isDigitChar
      if ds.isEmpty then none else some (digitsToNat ds : Int)

/-- JS `String.prototype.trim` (on the whitespace alphabet above). -/
def trimJS (cs : List Char) : List Char :=
  ((cs.dropWhile isSpaceJS).reverse.dropWhile isSpaceJS).reverse

/-- Case-insensitive prefix test (ASCII lower-casing), as used by the `/i`
regex flags in the source. -/
def isPrefixCI (pat : List Char) (cs : List Char) : Bool :=
  match pat, cs with
  | [], _ => true
  | _ :: _, [] => false
  | p :: ps, c :: cs' => (p.toLower = c.toLower) && isPrefixCI ps cs'

/-- Case-insensitive substring test (`/pat/i.test(s)` for a literal `pat`). -/
def containsCI (pat : List Char) : List Char → Bool
  | [] => pat.isEmpty
  | c :: t => isPrefixCI pat (c :: t) || containsCI pat t

/-! ### Dollar-amount token scanning

`server.js` price extraction, both in `fetchDomainListingByScrape`
(lines 113-129) and `fetchRealestateListing` (lines 182-202):

    const priceRangeMatch = html.match(/\x24[\d,]+(?:\s*-\s*\x24?[\d,]+)?/g);

followed, per matched token `s`, by

    const numStr = s.replace(...dollar...,'').replace(...comma...,'')
                    .split(/\s*-\s*/)[0].trim();
    const num = parseInt(numStr, 10);
    if (!isNaN(num) && num > 10000 && num < 50000000) { price = num; break; }
-/

def isDigitComma (c : Char) : Bool := isDigitChar c || c = ','

/-- Attempt the dollar-token pattern at a `$` already consumed; `t` is the
text after the `$`.  Returns the matched token (including the `$`) and the
rest of the input after the match, or `none` when the pattern fails here
(i.e. no digit/comma follows the `$`).  The optional range part
`(?:\s*-\s*\x24?[\d,]+)?` participates only when its `[\d,]+` is non-empty,
matching the regex backtracking behaviour. -/
def dollarTokenAt (t : List Char) : Option (List Char × List Char) :=
  let run := t.takeWhile isDigitComma
  let t1 := t.dropWhile isDigitComma
  if run.isEmpty then none
  else
    let sp1 := t1.takeWhile isSpaceJS
    let t2 := t1.dropWhile isSpaceJS
    match t2 with
    | '-' :: t3 =>
        let sp2 := t3.takeWhile isSpaceJS
        let t4 := t3.dropWhile isSpaceJS
        let hasDollar := match t4 with | '$' :: _ => true | _ => false
        let t5 := match t4 with | '$' :: r => r | _ => t4
        let run2 := t5.takeWhile isDigitComma
        let t6 := t5.dropWhile isDigitComma
        if run2.isEmpty then some ('$' :: run, t1)
        else some (('$' :: run) ++ sp1 ++ ('-' :: sp2) ++
                   (if hasDollar then ['$'] else []) ++ run2, t6)
    | _ => some ('$' :: run, t1)

/-- Global scan collecting all dollar tokens in order (the JS `g`-flag
`match`); fuelled driver — each step consumes at least one character so the
initial fuel `cs.length` is always sufficient. -/
def dollarTokensF : Nat → List Char → List (List Char)
  | 0, _ => []
  | _ + 1, [] => []
  | fuel + 1, '$' :: t =>
      match dollarTokenAt t with
      | some (tok, rest) => tok :: dollarTokensF fuel rest
      | none => dollarTokensF fuel t
  | fuel + 1, _ :: t => dollarTokensF fuel t

def dollarTokens (cs : List Char) : List (List Char) :=
  dollarTokensF cs.length cs

/-- `s.split(/\s*-\s*/)[0]`: the characters before the first (leftmost)
match of `\s*-\s*`; a match starts at the first position from which skipping
whitespace reaches a `-`. -/
def splitDashHead : List Char → List Char
  | [] => []
  | c :: t =>
      match (c :: t).dropWhile isSpaceJS with
      | '-' :: _ => []
      | _ => c :: splitDashHead t

/-- Per-token cleaning: remove `$` and `,`, take the part before the dash,
trim. -/
def tokenToNumStr (tok : List Char) : List Char :=
  trimJS (splitDashHead ((tok.filter (fun c => c ≠ '$')).filter (fun c => c ≠ ',')))

/-- The loop over dollar tokens: first token whose cleaned lower bound is a
number strictly between 10000 and 50000000 wins. -/
def rangePrice : List (List Char) → Option Int
  | [] => none
  | tok :: rest =>
      match parseIntJS (tokenToNumStr tok) with
      | some n => if 10000 < n && n < 50000000 then some n else rangePrice rest
      | none => rangePrice rest

/-- Price strategy 1 of both listing scrapers: first range-valid dollar
token of the page. -/
def priceFromDollarTokens (html : List Char) : Option Int :=
  rangePrice (dollarTokens html)

/-- After skipping `\s*`, is the head `m` or `M`? (tail of the
`\x24(\d(?:\.\d)?)\s*[mM]` pattern). -/
def tailIsM (l : List Char) : Bool :=
  match l.dropWhile isSpaceJS with
  | c :: _ => c = 'm' || c = 'M'
  | [] => false

/-- Decimal-million shorthand `\x24(\d(?:\.\d)?)\s*[mM]`, first match wins.
`Math.round(parseFloat(m[1]) * 1e6)` is exact on these one-or-two digit
inputs and equals `d * 1000000 + d2 * 100000`. -/
def priceMScan : List Char → Option Int
  | [] => none
  | '$' :: d :: rest =>
      if isDigitChar d then
        match rest with
        | '.' :: d2 :: r2 =>
            if isDigitChar d2 && tailIsM r2 then
              some ((digitVal d * 1000000 + digitVal d2 * 100000 : Nat) : Int)
            else if tailIsM rest then
              some ((digitVal d * 1000000 : Nat) : Int)
            else priceMScan (d :: rest)
        | _ =>
            if tailIsM rest then some ((digitVal d * 1000000 : Nat) : Int)
            else priceMScan (d :: rest)
      else priceMScan (d :: rest)
  | _ :: t => priceMScan t

/-- The literal part of the realestate.com.au JSON fallback pattern
`"price":\s*(\d+)`. -/
def priceJsonLit : List Char := ['"', 'p', 'r', 'i', 'c', 'e', '"', ':']

/-- Embedded structured `"price":\s*(\d+)` fallback (realestate.com.au
scraper only); note the source applies no range check to this value. -/
def priceJsonScan : List Char → Option Int
  | [] => none
  | c :: t =>
      if priceJsonLit.isPrefixOf (c :: t) then
        let r := (c :: t).drop priceJsonLit.length
        let ds := (r.dropWhile isSpaceJS).takeWhile isDigitChar
        if ds.isEmpty then priceJsonScan t else some ((digitsToNat ds : Nat) : Int)
      else priceJsonScan t

/-- First match of `(\d+)\s*KW...` for a list of alternative keyword
literals compared case-insensitively (`Bed(?:s|room)?`, `Bath(?:s|room)?`,
`(?:Parking|Car|Garage)` — acceptance of each only depends on the literal
stem prefix).  The captured group is the maximal digit run. -/
def numKeywordScan (kws : List (List Char)) : List Char → Option Int
  | [] => none
  | c :: t =>
      if isDigitChar c then
        let run := (c :: t).takeWhile isDigitChar
        let rest := (c :: t).dropWhile isDigitChar
        let rest2 := rest.dropWhile isSpaceJS
        if kws.any (fun kw => isPrefixCI kw rest2) then
          some ((digitsToNat run : Nat) : Int)
        else numKeywordScan kws t
      else numKeywordScan kws t

def bedsOf (html : List Char) : Option Int :=
  numKeywordScan [['b', 'e', 'd']] html

def bathsOf (html : List Char) : Option Int :=
  numKeywordScan [['b', 'a', 't', 'h']] html

def garageOf (html : List Char) : Option Int :=
  numKeywordScan [['p', 'a', 'r', 'k', 'i', 'n', 'g'], ['c', 'a', 'r'],
                  ['g', 'a', 'r', 'a', 'g', 'e']] html

/-- The JS null-coalescing fallback chain `if (price == null) price = ...`
over the parser strategies. -/
def jsOrOpt (a b : Option Int) : Option Int :=
  match a with
  | some x => some x
  | none => b

theorem jsOrOpt_eq_some {a b : Option Int} {n : Int} (h : jsOrOpt a b = some n) :
    a = some n ∨ (a = none ∧ b = some n) := by
  cases a with
  | some x => left; simpa [jsOrOpt] using h
  | none => right; exact ⟨rfl, by simpa [jsOrOpt] using h⟩

/-- The numeric fields of the extracted listing record (`price`, `bedrooms`,
`bathrooms`, `garage`).  The remaining fields of the source record
(`suburb`, `propertyType`, `garden`, `pool`, `displayAddress`) are computed
by independent code blocks that no claim under study refers to and are not
modelled. -/
structure ListingNums where
  price : Option Int
  bedrooms : Option Int
  bathrooms : Option Int
  garage : Option Int
deriving DecidableEq, Repr

/-- `fetchDomainListingByScrape` numeric extraction (`server.js` 113-138):
price = dollar-token strategy, else decimal-million shorthand. -/
def domainListingNums (html : List Char) : ListingNums :=
  { price := jsOrOpt (priceFromDollarTokens html) (priceMScan html)
    bedrooms := bedsOf html
    bathrooms := bathsOf html
    garage := garageOf html }

/-- `fetchRealestateListing` numeric extraction (`server.js` 182-211):
price = dollar-token strategy, else unchecked `"price"` JSON field, else
decimal-million shorthand. -/
def realestateListingNums (html : List Char) : ListingNums :=
  { price := jsOrOpt (priceFromDollarTokens html)
      (jsOrOpt (priceJsonScan html) (priceMScan html))
    bedrooms := bedsOf html
    bathrooms := bathsOf html
    garage := garageOf html }

/-- Block/challenge heuristic of `fetchDomainListingByScrape`
(`server.js` 107-109): short body plus a security keyword; such a page is
thrown, not parsed. -/
def blockedHeuristic (html : List Char) : Bool :=
  html.length < 5000 &&
    (containsCI ['b', 'l', 'o', 'c', 'k', 'e', 'd'] html ||
     containsCI ['c', 'a', 'p', 't', 'c', 'h', 'a'] html ||
     containsCI ['c', 'h', 'a', 'l', 'l', 'e', 'n', 'g', 'e'] html ||
     containsCI ['a', 'c', 'c', 'e', 's', 's', ' ', 'd', 'e', 'n', 'i', 'e', 'd'] html ||
     containsCI ['r', 'o', 'b', 'o', 't'] html)

/-- The Domain scraper as seen by callers: `none` on block detection
(an exception in the source), otherwise the extracted record. -/
def domainScrape (html : List Char) : Option ListingNums :=
  if blockedHeuristic html then none else some (domainListingNums html)

/-! ### Lemmas about the extraction scanners -/

theorem rangePrice_bounds : ∀ (toks : List (List Char)) (n : Int),
    rangePrice toks = some n → 10000 < n ∧ n < 50000000 := by
  intro toks
  induction toks with
  | nil => intro n h; simp [rangePrice] at h
  | cons tok rest ih =>
      intro n h
      simp only [rangePrice] at h
      split at h
      · split at h
        · cases h; simp_all
        · exact ih n h
      · exact ih n h

theorem priceMScan_nonneg : ∀ (cs : List Char) (n : Int),
    priceMScan cs = some n → 0 ≤ n := by
  intro cs
  induction cs using priceMScan.induct <;> intro n h <;>
      simp only [priceMScan] at h <;> repeat' split at h
  all_goals first
    | exact ‹∀ (n : Int), priceMScan _ = some n → 0 ≤ n› n h
    | (cases h; positivity)
    | cases h

theorem priceJsonScan_nonneg : ∀ (cs : List Char) (n : Int),
    priceJsonScan cs = some n → 0 ≤ n := by
  intro cs
  induction cs with
  | nil => intro n h; simp [priceJsonScan] at h
  | cons c t ih =>
      intro n h
      simp only [priceJsonScan] at h
      repeat' split at h
      all_goals first
        | exact ih n h
        | (cases h; positivity)
        | cases h

theorem numKeywordScan_nonneg (kws : List (List Char)) :
    ∀ (cs : List Char) (n : Int), numKeywordScan kws cs = some n → 0 ≤ n := by
  intro cs
  induction cs with
  | nil => intro n h; simp [numKeywordScan] at h
  | cons c t ih =>
      intro n h
      simp only [numKeywordScan] at h
      repeat' split at h
      all_goals first
        | exact ih n h
        | (cases h; positivity)
        | cases h

/--
**C4** (amended).  For every listing HTML input, the numeric fields of the
records returned by both listing extraction operations satisfy: bedrooms,
bathrooms and garage are null or a non-negative integer, price is null or a
non-negative integer, and any price found by the dollar-token strategy lies
strictly between 10000 and 50000000.  (The original claim's bound
`price ∈ [10000, 50000000]` for every present price fails: the
realestate.com.au `"price"` JSON fallback and the decimal-million shorthand
apply no range check — see the counterexample.)
-/
theorem claim_C4_listing_numeric_fields (html : List Char) :
    (∀ n, priceFromDollarTokens html = some n → 10000 < n ∧ n < 50000000) ∧
    (∀ n, (domainListingNums html).price = some n → 0 ≤ n) ∧
    (∀ n, (realestateListingNums html).price = some n → 0 ≤ n) ∧
    (∀ n, (domainListingNums html).bedrooms = some n → 0 ≤ n) ∧
    (∀ n, (domainListingNums html).bathrooms = some n → 0 ≤ n) ∧
    (∀ n, (domainListingNums html).garage = some n → 0 ≤ n) ∧
    (∀ n, (realestateListingNums html).bedrooms = some n → 0 ≤ n) ∧
    (∀ n, (realestateListingNums html).bathrooms = some n → 0 ≤ n) ∧
    (∀ n, (realestateListingNums html).garage = some n → 0 ≤ n) := by
  refine ⟨fun n h => rangePrice_bounds _ n h, fun n h => ?_, fun n h => ?_,
    fun n h => numKeywordScan_nonneg _ _ n h, fun n h => numKeywordScan_nonneg _ _ n h,
    fun n h => numKeywordScan_nonneg _ _ n h, fun n h => numKeywordScan_nonneg _ _ n h,
    fun n h => numKeywordScan_nonneg _ _ n h, fun n h => numKeywordScan_nonneg _ _ n h⟩
  · simp only [domainListingNums] at h
    rcases jsOrOpt_eq_some h with hp | ⟨-, hp⟩
    · exact le_of_lt (lt_trans (by norm_num) (rangePrice_bounds _ n hp).1)
    · exact priceMScan_nonneg html n hp
  · simp only [realestateListingNums] at h
    rcases jsOrOpt_eq_some h with hp | ⟨-, hp⟩
    · exact le_of_lt (lt_trans (by norm_num) (rangePrice_bounds _ n hp).1)
    · rcases jsOrOpt_eq_some hp with hj | ⟨-, hj⟩
      · exact priceJsonScan_nonneg html n hj
      · exact priceMScan_nonneg html n hj

/--
**C4** witness: on the page fragment `$20,000 3 Beds 2 Baths 1 Car` the
dollar-token strategy yields 20000, within the bounds.
-/
theorem claim_C4_listing_numeric_fields_witness :
    10000 < (20000 : Int) ∧ (20000 : Int) < 50000000 :=
  (claim_C4_listing_numeric_fields "$20,000 3 Beds 2 Baths 1 Car".toList).1
    20000 (by decide)

/--
**C4** counterexample: the realestate.com.au extraction on a page whose only
price evidence is the embedded JSON fragment `"price": 5` returns
price = 5, which is not null and lies outside `[10000, 50000000]` — the
claim's bound on the price field is violated by the unchecked JSON fallback.
-/
theorem claim_C4_counterexample :
    (realestateListingNums "\"price\": 5".toList).price = some 5 ∧
      ¬((10000 : Int) ≤ 5 ∧ (5 : Int) ≤ 50000000) := by
  constructor
  · decide
  · intro hc; omega

/-- The concrete first dollar token of claim C8. -/
def c8Token : List Char := "$1,100,000 - $1,210,000".toList

/--
**C8** (confirmed).  For any listing HTML whose first dollar token is the
range `$1,100,000 - $1,210,000`, both extraction operations return
price 1100000, the lower bound of the range.
-/
theorem claim_C8_range_lower_bound (html : List Char)
    (h : (dollarTokens html).head? = some c8Token) :
    (domainListingNums html).price = some 1100000 ∧
      (realestateListingNums html).price = some 1100000 := by
  have h1 : priceFromDollarTokens html = some 1100000 := by
    unfold priceFromDollarTokens
    cases htoks : dollarTokens html with
    | nil => rw [htoks] at h; simp at h
    | cons a rest =>
        rw [htoks] at h
        simp only [List.head?] at h
        cases h
        simp only [rangePrice]
        rw [show parseIntJS (tokenToNumStr c8Token) = some 1100000 from by decide]
        norm_num
  exact ⟨by simp [domainListingNums, h1, jsOrOpt], by simp [realestateListingNums, h1, jsOrOpt]⟩

/--
**C8** witness: a page consisting of exactly that range token extracts
price 1100000 through both operations.
-/
theorem claim_C8_range_lower_bound_witness :
    (domainListingNums c8Token).price = some 1100000 ∧
      (realestateListingNums c8Token).price = some 1100000 :=
  claim_C8_range_lower_bound c8Token (by decide)

/-! ### Nearest transit stops (`fetchNearbyStopsFromOSM`, `server.js` 374-399)

The Overpass response elements carry OSM tags; classification and
per-category selection are pure.  The haversine distance (`haversineKm`,
floating-point trigonometry in the source) is modelled as an abstract
distance function parameter `hav`; the claims under study supply its values.
-/

/-- The OSM tags the classifier reads (`el.tags?.x`); `none` = absent. -/
structure OsmTags where
  name : Option String
  station : Option String
  railway : Option String
  tram : Option String
  light_rail : Option String
  public_transport : Option String
  bus : Option String
  highway : Option String
deriving DecidableEq, Repr

structure OsmElement where
  tags : OsmTags
  lat : ℚ
  lon : ℚ
deriving DecidableEq, Repr

/-- JS truthiness of an optional tag string (`''` and absent are falsy). -/
def truthyStr : Option String → Bool
  | none => false
  | some s => s ≠ ""

/-- JS `a || b` for an optional string with a fallback. -/
def jsStrOr (a : Option String) (b : String) : String :=
  match a with
  | some s => if s = "" then b else s
  | none => b

/-- `el.tags?.name || el.tags?.station || 'Stop'`. -/
def stopNameOf (e : OsmElement) : String :=
  jsStrOr e.tags.name (jsStrOr e.tags.station "Stop")

/-- The three stop categories (the JS strings `'Train'`/`'Tram'`/`'Bus'`). -/
inductive StopKind | train | tram | bus
deriving DecidableEq, Repr

/-- Tag-precedence classification: railway station/halt → Train; tram or
light-rail tag `'yes'`, or a truthy public-transport tag without a truthy
bus tag → Tram; default Bus. -/
def stopKind (e : OsmElement) : StopKind :=
  if e.tags.railway = some "station" || e.tags.railway = some "halt" then .train
  else if e.tags.tram = some "yes" || e.tags.light_rail = some "yes" ||
      (truthyStr e.tags.public_transport && !truthyStr e.tags.bus) then .tram
  else .bus

structure Stop where
  name : String
  kind : StopKind
  distanceKm : ℚ
deriving DecidableEq, Repr

/-- JS `Math.round` on the (finite) values arising here. -/
def jsRound (q : ℚ) : Int := ⌊q + 1 / 2⌋

/-- `Math.round(dist * 100) / 100`. -/
def round2 (q : ℚ) : ℚ := ((jsRound (q * 100) : ℚ)) / 100

/-- Stable insertion of a later element after all already-placed elements
with distance ≤ its own. -/
def insertByDist (s : Stop) : List Stop → List Stop
  | [] => [s]
  | h :: t => if h.distanceKm ≤ s.distanceKm then h :: insertByDist s t else s :: h :: t

/-- `stops.sort((a, b) => a.distanceKm - b.distanceKm)`: stable ascending
sort by distance (V8 `Array.prototype.sort` is stable). -/
def sortStops (l : List Stop) : List Stop :=
  l.foldl (fun acc s => insertByDist s acc) []

/-- The per-category accumulator `{ Train: null, Tram: null, Bus: null }`. -/
structure ByKind where
  train : Option Stop
  tram : Option Stop
  bus : Option Stop
deriving DecidableEq, Repr

/-- `for (const s of stops) if (!byType[s.type]) byType[s.type] = s`. -/
def pickNearest (l : List Stop) : ByKind :=
  l.foldl
    (fun acc s =>
      if s.kind = .train then
        (if acc.train.isNone then { acc with train := some s } else acc)
      else if s.kind = .tram then
        (if acc.tram.isNone then { acc with tram := some s } else acc)
      else
        (if acc.bus.isNone then { acc with bus := some s } else acc))
    { train := none, tram := none, bus := none }

/-- `fetchNearbyStopsFromOSM` after the Overpass response has been parsed
into `elements`; `hav` stands for `haversineKm`. -/
def fetchNearbyStopsFromOSM (hav : ℚ → ℚ → ℚ → ℚ → ℚ) (lat lon : ℚ)
    (elements : List OsmElement) : ByKind :=
  pickNearest (sortStops (elements.map (fun el =>
    { name := stopNameOf el
      kind := stopKind el
      distanceKm := round2 (hav lat lon el.lat el.lon) })))

/--
**C7** (confirmed).  When the response contains exactly one railway-station
node at great-circle distance 0.5 km from the query point and one bus-stop
node at 0.2 km (in either order), the result has Train = that station and
Bus = that stop, each with its distance rounded to 2 decimal places, and
Tram = null.
-/
theorem claim_C7_nearest_stops (hav : ℚ → ℚ → ℚ → ℚ → ℚ) (lat lon : ℚ)
    (e1 e2 : OsmElement)
    (h1 : e1.tags.railway = some "station")
    (h2r : e2.tags.railway = none) (h2t : e2.tags.tram = none)
    (h2l : e2.tags.light_rail = none) (h2p : e2.tags.public_transport = none)
    (hd1 : hav lat lon e1.lat e1.lon = 1 / 2)
    (hd2 : hav lat lon e2.lat e2.lon = 1 / 5) :
    fetchNearbyStopsFromOSM hav lat lon [e1, e2] =
      { train := some { name := stopNameOf e1, kind := .train, distanceKm := 1 / 2 }
        tram := none
        bus := some { name := stopNameOf e2, kind := .bus, distanceKm := 1 / 5 } } ∧
    fetchNearbyStopsFromOSM hav lat lon [e2, e1] =
      { train := some { name := stopNameOf e1, kind := .train, distanceKm := 1 / 2 }
        tram := none
        bus := some { name := stopNameOf e2, kind := .bus, distanceKm := 1 / 5 } } := by
  have hk1 : stopKind e1 = .train := by simp [stopKind, h1]
  have hk2 : stopKind e2 = .bus := by
    simp [stopKind, h2r, h2t, h2l, h2p, truthyStr]
  have hr1 : round2 (1 / 2) = 1 / 2 := by
    norm_num [round2, jsRound]
  have hr2 : round2 (1 / 5) = 1 / 5 := by
    norm_num [round2, jsRound]
  have hle : ¬((1 : ℚ) / 2 ≤ 1 / 5) := by norm_num
  have hle' : (1 : ℚ) / 5 ≤ 1 / 2 := by norm_num
  constructor <;>
    · simp only [fetchNearbyStopsFromOSM, List.map, hd1, hd2, hk1, hk2]
      rw [hr1, hr2]
      simp only [sortStops, List.foldl, insertByDist]
      first
        | rw [if_neg hle]
        | rw [if_pos hle']
      simp only [pickNearest, List.foldl, Option.isNone,
        (by decide : (StopKind.bus = StopKind.train) = False),
        (by decide : (StopKind.bus = StopKind.tram) = False),
        (by decide : (StopKind.train = StopKind.train) = True),
        if_true, if_false]

/--
**C7** witness: a concrete element pair (a station named `Glenferrie` 0.5 km
away, an unnamed bus stop 0.2 km away) resolves to Train = the station and
Bus = the stop at the rounded distances, Tram = null.
-/
theorem claim_C7_nearest_stops_witness :
    fetchNearbyStopsFromOSM (fun _ _ elat _ => if elat = 1 then 1 / 2 else 1 / 5) 0 0
      [{ tags := { name := some "Glenferrie", station := none, railway := some "station",
                   tram := none, light_rail := none, public_transport := none,
                   bus := none, highway := none }, lat := 1, lon := 4 },
       { tags := { name := none, station := none, railway := none,
                   tram := none, light_rail := none, public_transport := none,
                   bus := none, highway := some "bus_stop" }, lat := 2, lon := 4 }] =
      { train := some { name := "Glenferrie", kind := .train, distanceKm := 1 / 2 }
        tram := none
        bus := some { name := "Stop", kind := .bus, distanceKm := 1 / 5 } } :=
  (claim_C7_nearest_stops (fun _ _ elat _ => if elat = 1 then 1 / 2 else 1 / 5) 0 0
    _ _ rfl rfl rfl rfl rfl (by norm_num) (by norm_num)).1

/-! ### Association lists for JS objects / Maps

JS objects and `Map`s have unique keys and preserve insertion order; they
are modelled as association lists where `aset` updates in place or appends,
matching `obj[k] = v` / `Map.set`. -/

def alookup {α : Type} : List (String × α) → String → Option α
  | [], _ => none
  | (k, v) :: t, n => if k = n then some v else alookup t n

def aset {α : Type} : List (String × α) → String → α → List (String × α)
  | [], n, v => [(n, v)]
  | (k, w) :: t, n, v => if k = n then (n, v) :: t else (k, w) :: aset t n v

/-- Update the value at a key in place, if present (`obj[k].f = ...`). -/
def aupdate {α : Type} (f : α → α) : List (String × α) → String → List (String × α)
  | [], _ => []
  | (k, w) :: t, n => if k = n then (k, f w) :: t else (k, w) :: aupdate f t n

/-- Remove a key (a JS property set to `undefined` disappears when the
object is re-serialised with `JSON.stringify`). -/
def aerase {α : Type} (l : List (String × α)) (n : String) : List (String × α) :=
  l.filter (fun p => p.1 ≠ n)

theorem alookup_aset_same {α : Type} (l : List (String × α)) (n : String) (v : α) :
    alookup (aset l n v) n = some v := by
  induction l with
  | nil => simp [aset, alookup]
  | cons p t ih =>
      obtain ⟨k, w⟩ := p
      by_cases hk : k = n
      · simp [aset, alookup, hk]
      · simp [aset, alookup, hk, ih]

theorem alookup_aset_other {α : Type} (l : List (String × α)) (n m : String) (v : α)
    (hnm : m ≠ n) : alookup (aset l n v) m = alookup l m := by
  induction l with
  | nil => simp [aset, alookup, Ne.symm hnm]
  | cons p t ih =>
      obtain ⟨k, w⟩ := p
      by_cases hk : k = n
      · subst hk; simp [aset, alookup, Ne.symm hnm]
      · simp [aset, alookup, hk, ih]

theorem alookup_aupdate_other {α : Type} (f : α → α) (l : List (String × α))
    (n m : String) (hnm : m ≠ n) : alookup (aupdate f l n) m = alookup l m := by
  induction l with
  | nil => simp [aupdate]
  | cons p t ih =>
      obtain ⟨k, w⟩ := p
      by_cases hk : k = n
      · subst hk; simp [aupdate, alookup, Ne.symm hnm]
      · simp [aupdate, alookup, hk, ih]

/-! ### Suburb Price Resolver TTL cache (`fetchREIVSuburbPrices`, `server.js` 417-469)

    const cached = reivCache.get(slug);
    if (cached && (now - cached.at) < REIV_CACHE_TTL_MS) return cached.data;
    ... fetch ...
    if (!res.ok) return null;
    ... parse `html` into `result` ...
    reivCache.set(slug, { data: result, at: now });
    return result;

The parse block (lines 444-466) is a pure function of the fetched page that
does not influence the cache discipline; it is abstracted as a `parse`
parameter so the cache behaviour is proved for every parser.  The upstream
fetch outcome is an `Option` page (`none` = non-2xx).  Timestamps are
naturals; the JS comparison `now - cached.at < TTL` agrees with the
truncated natural subtraction used here whenever it is reached (for
`now < cached.at` both sides accept).  The third component counts upstream
HTTP fetches performed by the call. -/

def REIV_CACHE_TTL_MS : Nat := 5 * 60 * 1000

def fetchREIVSuburbPrices {α : Type} (parse : List Char → α)
    (cache : List (String × (Nat × α))) (slug : String) (now : Nat)
    (upstream : Option (List Char)) :
    Option α × List (String × (Nat × α)) × Nat :=
  match alookup cache slug with
  | some entry =>
      if now - entry.1 < REIV_CACHE_TTL_MS then (some entry.2, cache, 0)
      else
        match upstream with
        | none => (none, cache, 1)
        | some html =>
            let result := parse html
            (some result, aset cache slug (now, result), 1)
  | none =>
      match upstream with
      | none => (none, cache, 1)
      | some html =>
          let result := parse html
          (some result, aset cache slug (now, result), 1)

/--
**C6** (amended).  Two Suburb Price Resolver calls for the same (previously
uncached) slug within the 5-minute TTL window trigger exactly one upstream
fetch — provided the first call's fetch succeeds (2xx): the parsed result is
cached, and the second call is answered from the TTL cache without fetching,
returning the same value.  (Without the success proviso the claim fails: a
non-2xx first fetch caches nothing and the second call fetches again — see
the counterexample.)
-/
theorem claim_C6_ttl_cache_single_fetch {α : Type} (parse : List Char → α)
    (cache : List (String × (Nat × α))) (slug : String) (t1 t2 : Nat)
    (html : List Char) (upstream2 : Option (List Char))
    (hmiss : alookup cache slug = none)
    (hwin : t2 - t1 < REIV_CACHE_TTL_MS) :
    (fetchREIVSuburbPrices parse cache slug t1 (some html)).2.2 = 1 ∧
    (fetchREIVSuburbPrices parse
        (fetchREIVSuburbPrices parse cache slug t1 (some html)).2.1
        slug t2 upstream2).2.2 = 0 ∧
    (fetchREIVSuburbPrices parse
        (fetchREIVSuburbPrices parse cache slug t1 (some html)).2.1
        slug t2 upstream2).1 = some (parse html) := by
  have h1 : fetchREIVSuburbPrices parse cache slug t1 (some html) =
      (some (parse html), aset cache slug (t1, parse html), 1) := by
    simp [fetchREIVSuburbPrices, hmiss]
  rw [h1]
  have h2 : alookup (aset cache slug (t1, parse html)) slug =
      some (t1, parse html) := alookup_aset_same cache slug _
  simp [fetchREIVSuburbPrices, h2, hwin]

/--
**C6** witness: with an identity parser, an empty cache and calls at
t = 0 ms and t = 60000 ms, the first call fetches once and the second is a
cache hit returning the parsed page.
-/
theorem claim_C6_ttl_cache_single_fetch_witness :
    (fetchREIVSuburbPrices (fun h => h) [] "south-morang" 0 (some "$1mil".toList)).2.2 = 1 ∧
    (fetchREIVSuburbPrices (fun h => h)
        (fetchREIVSuburbPrices (fun h => h) [] "south-morang" 0 (some "$1mil".toList)).2.1
        "south-morang" 60000 none).2.2 = 0 ∧
    (fetchREIVSuburbPrices (fun h => h)
        (fetchREIVSuburbPrices (fun h => h) [] "south-morang" 0 (some "$1mil".toList)).2.1
        "south-morang" 60000 none).1 = some "$1mil".toList :=
  claim_C6_ttl_cache_single_fetch (fun h => h) [] "south-morang" 0 60000
    "$1mil".toList none (by decide) (by decide)

/--
**C6** counterexample to the claim as stated: when the first call's upstream
fetch is non-2xx (`!res.ok` returns null without caching), two calls for the
same slug 1000 ms apart — well inside the 5-minute TTL window — perform one
upstream fetch each, i.e. two fetches in total, not exactly one.
-/
theorem claim_C6_counterexample :
    (fetchREIVSuburbPrices (fun h => h) [] "south-morang" 0 none).2.2 = 1 ∧
    (fetchREIVSuburbPrices (fun h => h)
        (fetchREIVSuburbPrices (fun h => h) [] "south-morang" 0 none).2.1
        "south-morang" 1000 none).2.2 = 1 ∧
    ¬((fetchREIVSuburbPrices (fun h => h) [] "south-morang" 0 none).2.2 +
      (fetchREIVSuburbPrices (fun h => h)
        (fetchREIVSuburbPrices (fun h => h) [] "south-morang" 0 none).2.1
        "south-morang" 1000 none).2.2 = 1) := by
  refine ⟨by decide, by decide, by decide⟩

/-! ### The persisted suburb dataset (`data/suburbs.json`)

Shape as read and written by the pipeline scripts.  `priceHistory` is a JS
object (year string → price); `coords` is `null` or an array (scripts guard
on `coords.length !== 2`, so the array length is kept general); `reivSlug`
can be absent/`null` (falsy) or a string (`''` also falsy). -/

structure Demographics where
  population : Int
  medianAge : Option Int
  familyHouseholds : String
  ownerOccupied : String
  bornOverseas : String
deriving DecidableEq, Repr

structure SuburbRecord where
  postcode : String
  municipality : String
  coords : Option (List ℚ)
  medianPrice : Option Int
  medianPriceUnit : Option Int
  annualChange : Option ℚ
  salesCount : Option Int
  priceHistory : List (String × Int)
  demographics : Demographics
  schools : List String
  transport : List (String × String)
  amenities : List String
  reivSlug : Option String
deriving DecidableEq, Repr

structure DatasetMetadata where
  source : String
  sourceUrl : String
  dataQuarter : String
  lastUpdated : String
  notes : String
deriving DecidableEq, Repr

structure Dataset where
  suburbs : List (String × SuburbRecord)
  metadata : DatasetMetadata
deriving DecidableEq, Repr

/-! ### Merge stage (`scripts/merge-vpsr-data.js`)

Header comment of the script (its documented policy):
"When a suburb exists in data/vpsr-june-2025.json, update median price
fields from the PDF.  When data is unavailable in the PDF, keep the existing
website values."  The loop body (lines 27-48) is embedded below; note the
no-row branch clears the price fields instead. -/

/-- A row of `data/vpsr-june-2025.json` as the merge script reads it
(`medianPriceUnit` is never produced by the extract script but the merge
reads it, so it is kept). -/
structure VpsrRow where
  medianPrice : Option Int
  medianPriceUnit : Option Int
  annualChange : Option ℚ
  salesCount : Option Int
deriving DecidableEq, Repr

/-- Per-suburb merge step.  No row: clear the four price fields and delete
`priceHistory['2025']` (set to `undefined`, dropped on re-serialisation).
Row present: overwrite each field the row carries and stamp
`priceHistory['2025']`. -/
def mergeVpsrSuburb (rowOpt : Option VpsrRow) (sub : SuburbRecord) : SuburbRecord :=
  match rowOpt with
  | none =>
      { sub with medianPrice := none, medianPriceUnit := none, annualChange := none,
                 salesCount := none, priceHistory := aerase sub.priceHistory "2025" }
  | some row =>
      let s1 :=
        match row.medianPrice with
        | some mp =>
            { sub with medianPrice := some mp,
                       priceHistory := aset sub.priceHistory "2025" mp }
        | none => sub
      let s2 :=
        match row.medianPriceUnit with
        | some u => { s1 with medianPriceUnit := some u }
        | none => s1
      let s3 :=
        match row.annualChange with
        | some a => { s2 with annualChange := some a }
        | none => s2
      match row.salesCount with
      | some c => { s3 with salesCount := some c }
      | none => s3

/-- The metadata block the merge script writes (lines 50-54), including the
notes string claiming "otherwise prior data retained". -/
def mergeVpsrMetadata : DatasetMetadata :=
  { source := "Victorian Property Sales Report - Land Victoria"
    sourceUrl := "https://www.land.vic.gov.au/valuations/resources-and-reports/property-sales-statistics"
    dataQuarter := "Q2 2025 (Jun 2025)"
    lastUpdated := "2025-12-01"
    notes := "Median prices from VPSR June 2025 quarter where available; otherwise prior data retained. Demographics from ABS Census." }

/-- The whole merge run: filter `_`-prefixed keys from the report object,
merge every persisted suburb against its row, overwrite the metadata.  The
script takes no configuration input of any kind (its only inputs are the two
JSON files). -/
def mergeVpsrData (ds : Dataset) (vpsr : List (String × VpsrRow)) : Dataset :=
  let vpsrData := vpsr.filter (fun p => !p.1.startsWith "_")
  { suburbs := ds.suburbs.map (fun p => (p.1, mergeVpsrSuburb (alookup vpsrData p.1) p.2))
    metadata := mergeVpsrMetadata }

/-- Concrete pre-merge suburb for the C1 evidence. -/
def c1Suburb : SuburbRecord :=
  { postcode := "3067", municipality := "Yarra", coords := some [-37, 145]
    medianPrice := some 1300000, medianPriceUnit := some 650000
    annualChange := some 2, salesCount := some 40
    priceHistory := [("2024", 1250000), ("2025", 1310000)]
    demographics := { population := 9000, medianAge := some 33, familyHouseholds := "40%",
                      ownerOccupied := "50%", bornOverseas := "30%" }
    schools := [], transport := [], amenities := [], reivSlug := some "abbotsford" }

def c1Metadata : DatasetMetadata :=
  { source := "REIV", sourceUrl := "https://reiv.com.au", dataQuarter := "Q1 2025"
    lastUpdated := "2025-09-01", notes := "old" }

def c1Dataset : Dataset :=
  { suburbs := [("Abbotsford", c1Suburb)], metadata := c1Metadata }

/--
**C1** (code bug evidence).  For a persisted suburb with no matching
quarterly-report row, the merge stage — which accepts no configuration
option at all — unconditionally clears `medianPrice`, `medianPriceUnit`,
`annualChange` and `salesCount` to null and deletes `priceHistory['2025']`,
while in the same run writing a metadata notes string asserting
"otherwise prior data retained" (matching the script's own header comment).
The code thus hard-codes one behaviour and simultaneously documents the
opposite one; no configuration option selects the policy.
-/
theorem claim_C1_merge_policy :
    (alookup (mergeVpsrData c1Dataset []).suburbs "Abbotsford" =
      some { c1Suburb with
             medianPrice := none
             medianPriceUnit := none
             annualChange := none
             salesCount := none
             priceHistory := [("2024", 1250000)] }) ∧
    (mergeVpsrData c1Dataset []).metadata.notes =
      "Median prices from VPSR June 2025 quarter where available; otherwise prior data retained. Demographics from ABS Census." :=
  ⟨rfl, rfl⟩

/-! ### Stub creation (`scripts/extract-vpsr-suburbs.js`, lines 102-130)

    const stub = { postcode: '', municipality: '', coords: null, medianPrice: null,
      medianPriceUnit: null, annualChange: null, salesCount: null, priceHistory: {},
      demographics: {...}, schools: [], transport: {}, amenities: [], reivSlug: '' };
    for (const [name, row] of byName) {
      if (suburbs.suburbs[name]) continue;
      const slug = name.toLowerCase().replace(...whitespace-runs..., '-')
                       .replace(...parens..., '');
      suburbs.suburbs[name] = { ...stub, medianPrice: row.medianPrice,
        annualChange: row.annualChange ?? null, salesCount: row.salesCount ?? null,
        reivSlug: slug };
    }
-/

/-- A `byName` entry of the extract script (`medianPrice` always present). -/
structure ExtractRow where
  medianPrice : Int
  annualChange : Option ℚ
  salesCount : Option Int
deriving DecidableEq, Repr

/-- The literal `stub` object of the script. -/
def vpsrStubBase : SuburbRecord :=
  { postcode := "", municipality := "", coords := none, medianPrice := none
    medianPriceUnit := none, annualChange := none, salesCount := none
    priceHistory := []
    demographics := { population := 0, medianAge := none, familyHouseholds := "-",
                      ownerOccupied := "-", bornOverseas := "-" }
    schools := [], transport := [], amenities := [], reivSlug := some "" }

/-- `replace(/\s+/g, '-')`: each whitespace run becomes a single hyphen.
The flag records whether the previous character belonged to a run. -/
def hyphenateSpacesAux : Bool → List Char → List Char
  | _, [] => []
  | inRun, c :: t =>
      if isSpaceJS c then
        (if inRun then hyphenateSpacesAux true t else '-' :: hyphenateSpacesAux true t)
      else c :: hyphenateSpacesAux false t

/-- `name.toLowerCase().replace(/\s+/g, '-').replace(/[()]/g, '')`. -/
def vpsrSlug (name : String) : String :=
  (((hyphenateSpacesAux false (name.toList.map Char.toLower)).filter
      (fun c => c ≠ '(' && c ≠ ')'))).asString

/-- The record inserted for a missing locality. -/
def vpsrStubFor (name : String) (row : ExtractRow) : SuburbRecord :=
  { vpsrStubBase with
    medianPrice := some row.medianPrice
    annualChange := row.annualChange
    salesCount := row.salesCount
    reivSlug := some (vpsrSlug name) }

/-- The stub-creation loop (checks presence against the dataset as already
mutated by earlier iterations; new suburbs are appended in report order). -/
def addVpsrStubs : List (String × SuburbRecord) → List (String × ExtractRow) →
    List (String × SuburbRecord)
  | subs, [] => subs
  | subs, (n, r) :: rest =>
      if (alookup subs n).isSome then addVpsrStubs subs rest
      else addVpsrStubs (subs ++ [(n, vpsrStubFor n r)]) rest

theorem alookup_append {α : Type} (l1 l2 : List (String × α)) (k : String) :
    alookup (l1 ++ l2) k =
      match alookup l1 k with
      | some v => some v
      | none => alookup l2 k := by
  induction l1 with
  | nil => simp [alookup]
  | cons p t ih =>
      obtain ⟨a, b⟩ := p
      by_cases hk : a = k
      · simp [alookup, hk]
      · simp [alookup, hk, ih]

theorem alookup_addVpsrStubs_mono :
    ∀ (rows : List (String × ExtractRow)) (subs : List (String × SuburbRecord))
      (k : String) (v : SuburbRecord), alookup subs k = some v →
      alookup (addVpsrStubs subs rows) k = some v := by
  intro rows
  induction rows with
  | nil => intro subs k v h; simpa [addVpsrStubs] using h
  | cons p rest ih =>
      intro subs k v h
      obtain ⟨n, r⟩ := p
      simp only [addVpsrStubs]
      split
      · exact ih subs k v h
      · refine ih _ k v ?_
        rw [alookup_append, h]

/--
**C2** (amended).  For every report locality absent from the persisted
dataset (report keys being unique), the stub-creation loop inserts a new
SuburbRecord whose fields `medianPriceUnit`, `coords`, `priceHistory`,
`postcode`, `municipality`, `schools`, `transport` and `amenities` are
null/empty and whose `reivSlug` is the locality name lower-cased with
whitespace runs replaced by hyphens and parentheses stripped — but whose
`medianPrice`, `annualChange` and `salesCount` are copied from the report
row rather than left null (see the counterexample against the original
claim).
-/
theorem claim_C2_stub_creation (subs : List (String × SuburbRecord))
    (rows : List (String × ExtractRow)) (n : String) (r : ExtractRow)
    (hnodup : (rows.map Prod.fst).Nodup)
    (habs : alookup subs n = none) (hmem : (n, r) ∈ rows) :
    alookup (addVpsrStubs subs rows) n = some
      { postcode := "", municipality := "", coords := none
        medianPrice := some r.medianPrice
        medianPriceUnit := none
        annualChange := r.annualChange
        salesCount := r.salesCount
        priceHistory := []
        demographics := { population := 0, medianAge := none, familyHouseholds := "-",
                          ownerOccupied := "-", bornOverseas := "-" }
        schools := [], transport := [], amenities := []
        reivSlug := some (vpsrSlug n) } := by
  have hstub : vpsrStubFor n r =
      { postcode := "", municipality := "", coords := none
        medianPrice := some r.medianPrice
        medianPriceUnit := none
        annualChange := r.annualChange
        salesCount := r.salesCount
        priceHistory := []
        demographics := { population := 0, medianAge := none, familyHouseholds := "-",
                          ownerOccupied := "-", bornOverseas := "-" }
        schools := [], transport := [], amenities := []
        reivSlug := some (vpsrSlug n) } := rfl
  rw [← hstub]
  clear hstub
  induction rows generalizing subs with
  | nil => simp at hmem
  | cons p rest ih =>
      obtain ⟨m, q⟩ := p
      simp only [List.map_cons, List.nodup_cons] at hnodup
      rcases List.mem_cons.mp hmem with heq | hrest
      · have hn : n = m := congrArg Prod.fst heq
        have hr : r = q := congrArg Prod.snd heq
        subst hn; subst hr
        simp only [addVpsrStubs, habs, Option.isSome_none, Bool.false_eq_true,
          if_false]
        refine alookup_addVpsrStubs_mono rest _ n _ ?_
        rw [alookup_append, habs, alookup]
        simp
      · have hnm : n ≠ m := by
          intro hcontra
          exact hnodup.1 (hcontra ▸ (List.mem_map_of_mem Prod.fst hrest))
        simp only [addVpsrStubs]
        split
        · exact ih subs hnodup.2 habs hrest
        · refine ih _ hnodup.2 ?_ hrest
          rw [alookup_append, habs]
          simp [alookup, Ne.symm hnm]

/--
**C2** witness: inserting locality `Glen Iris (East)` with a report row into
an empty dataset produces the stub with copied report figures and slug
`glen-iris-east`.
-/
theorem claim_C2_stub_creation_witness :
    alookup (addVpsrStubs []
        [("Glen Iris (East)", { medianPrice := 1500000, annualChange := none,
                                salesCount := some 12 : ExtractRow })])
      "Glen Iris (East)" = some
      { postcode := "", municipality := "", coords := none
        medianPrice := some 1500000
        medianPriceUnit := none
        annualChange := none
        salesCount := some 12
        priceHistory := []
        demographics := { population := 0, medianAge := none, familyHouseholds := "-",
                          ownerOccupied := "-", bornOverseas := "-" }
        schools := [], transport := [], amenities := []
        reivSlug := some "glen-iris-east" } :=
  claim_C2_stub_creation []
    [("Glen Iris (East)", { medianPrice := 1500000, annualChange := none,
                            salesCount := some 12 : ExtractRow })]
    "Glen Iris (East)"
    { medianPrice := 1500000, annualChange := none, salesCount := some 12 }
    (by simp) rfl (by simp)

/--
**C2** counterexample to the original claim: the stub inserted for a report
locality carries the report row's `medianPrice` (here 500000), not null —
the claim's "enrichable fields (medianPrice, ...) are null/empty" is false
for `medianPrice`, `annualChange` and `salesCount`.
-/
theorem claim_C2_counterexample :
    (alookup (addVpsrStubs []
        [("Newtown", { medianPrice := 500000, annualChange := none,
                       salesCount := some 12 : ExtractRow })]) "Newtown").map
      SuburbRecord.medianPrice = some (some 500000) ∧
    (alookup (addVpsrStubs []
        [("Newtown", { medianPrice := 500000, annualChange := none,
                       salesCount := some 12 : ExtractRow })]) "Newtown").map
      SuburbRecord.medianPrice ≠ some none := by
  have h1 : (alookup (addVpsrStubs []
      [("Newtown", { medianPrice := 500000, annualChange := none,
                     salesCount := some 12 : ExtractRow })]) "Newtown").map
      SuburbRecord.medianPrice = some (some 500000) := rfl
  exact ⟨h1, by rw [h1]; simp⟩

/-! ### Geocode-fill stage (`scripts/geocode-missing-suburbs.js`)

    async function geocode(query) {
      ... if (!res.ok) return null;
      const data = await res.json();
      if (!Array.isArray(data) || data.length === 0) return null;
      const lat = parseFloat(data[0].lat); const lon = parseFloat(data[0].lon);
      if (isNaN(lat) || isNaN(lon)) return null;
      return { lat, lon };
    }

and the main loop (lines 127-144): per missing-and-uncached suburb, one
call; `cache[name] = result` and a cache file write only when the result is
non-null; an exception is caught and logged, writing nothing. -/

/-- A JS number as produced by `parseFloat`: NaN, ±Infinity, or a finite
(here exact rational) value. -/
inductive JSNum
  | nan
  | inf
  | negInf
  | num (q : ℚ)
deriving DecidableEq, Repr

def isFiniteNum : JSNum → Bool
  | .num _ => true
  | _ => false

/-- JS `parseFloat`: longest numeric-literal prefix after leading
whitespace — optional sign, `Infinity`, or digits with optional fraction and
optional exponent (an `e` not followed by digits is ignored); NaN when no
digits are found. -/
def parseFloatJS (cs : List Char) : JSNum :=
  let cs1 := cs.dropWhile isSpaceJS
  let neg := match cs1 with | '-' :: _ => true | _ => false
  let cs2 := match cs1 with | '-' :: t => t | '+' :: t => t | t => t
  if ("Infinity".toList).isPrefixOf cs2 then (if neg then .negInf else .inf)
  else
    let ipart := cs2.takeWhile isDigitChar
    let r1 := cs2.dropWhile isDigitChar
    let fpart := match r1 with | '.' :: t => t.takeWhile isDigitChar | _ => []
    let r2 := match r1 with | '.' :: t => t.dropWhile isDigitChar | _ => r1
    if ipart.isEmpty && fpart.isEmpty then .nan
    else
      let mant : ℚ := (digitsToNat ipart : ℚ) + (digitsToNat fpart : ℚ) / (10 ^ fpart.length)
      let expDigits := match r2 with
        | 'e' :: '-' :: t => t.takeWhile isDigitChar
        | 'e' :: '+' :: t => t.takeWhile isDigitChar
        | 'e' :: t => t.takeWhile isDigitChar
        | 'E' :: '-' :: t => t.takeWhile isDigitChar
        | 'E' :: '+' :: t => t.takeWhile isDigitChar
        | 'E' :: t => t.takeWhile isDigitChar
        | _ => []
      let expNeg := match r2 with
        | 'e' :: '-' :: _ => true
        | 'E' :: '-' :: _ => true
        | _ => false
      let value : ℚ :=
        if expDigits.isEmpty then mant
        else if expNeg then mant / (10 ^ digitsToNat expDigits)
        else mant * (10 ^ digitsToNat expDigits)
      .num (if neg then -value else value)

/-- One raw Nominatim result (`lat`/`lon` are JSON strings). -/
structure GeoResult where
  lat : String
  lon : String
deriving DecidableEq, Repr

/-- The environment's response to one geocode call. -/
inductive GeoUpstream
  | httpFail
  | jsonThrow
  | nonArray
  | results (rs : List GeoResult)
deriving DecidableEq, Repr

/-- What the `geocode` function does with it: throw, or return
null / a parsed pair. -/
inductive GeoOutcome
  | threw
  | value (v : Option (JSNum × JSNum))
deriving DecidableEq, Repr

/-- The `geocode` function of the script. -/
def geocode : GeoUpstream → GeoOutcome
  | .httpFail => .value none
  | .jsonThrow => .threw
  | .nonArray => .value none
  | .results [] => .value none
  | .results (r :: _) =>
      let la := parseFloatJS r.lat.toList
      let lo := parseFloatJS r.lon.toList
      if la = .nan || lo = .nan then .value none else .value (some (la, lo))

/-- The cache effect of one main-loop iteration: `cache[name] = result` only
on a non-null result; a thrown error is caught (logged) and writes
nothing. -/
def geocodeCacheStep (cache : List (String × (JSNum × JSNum))) (name : String)
    (up : GeoUpstream) : List (String × (JSNum × JSNum)) :=
  match geocode up with
  | .threw => cache
  | .value none => cache
  | .value (some c) => aset cache name c

theorem geocode_some_not_nan (up : GeoUpstream) (la lo : JSNum)
    (h : geocode up = .value (some (la, lo))) : la ≠ .nan ∧ lo ≠ .nan := by
  cases up with
  | httpFail => simp [geocode] at h
  | jsonThrow => simp [geocode] at h
  | nonArray => simp [geocode] at h
  | results rs =>
      cases rs with
      | nil => simp [geocode] at h
      | cons r rest =>
          simp only [geocode] at h
          split at h
          · cases h
          · rename_i hguard
            simp only [Bool.or_eq_true, decide_eq_true_eq, not_or] at hguard
            cases h
            exact ⟨hguard.1, hguard.2⟩

/--
**C9** (amended).  Every entry the geocode-fill loop writes to the durable
geocode cache is the `{lat, lon}` pair of parsed, non-NaN numbers of a
successful geocode call for that suburb; a call that fails (non-2xx),
throws, returns a non-array or zero results, or parses to NaN coordinates
writes nothing, so such a suburb is re-attempted on a later run.  (The
original claim's "finite" is too strong: the guard checks `isNaN` only, so
an upstream coordinate string parsing to Infinity is cached — see the
counterexample.)
-/
theorem claim_C9_cache_writes (cache : List (String × (JSNum × JSNum)))
    (name : String) (up : GeoUpstream) :
    (∀ n e, alookup (geocodeCacheStep cache name up) n = some e →
        alookup cache n = some e ∨
          (n = name ∧ geocode up = .value (some e) ∧
           e.1 ≠ .nan ∧ e.2 ≠ .nan)) ∧
    ((geocode up = .threw ∨ geocode up = .value none) →
        geocodeCacheStep cache name up = cache) := by
  constructor
  · intro n e h
    cases hg : geocode up with
    | threw => left; simpa [geocodeCacheStep, hg] using h
    | value v =>
        cases v with
        | none => left; simpa [geocodeCacheStep, hg] using h
        | some c =>
            by_cases hn : n = name
            · right
              subst hn
              rw [geocodeCacheStep, hg] at h
              rw [alookup_aset_same] at h
              injection h with hce
              subst hce
              exact ⟨rfl, rfl, geocode_some_not_nan up c.1 c.2 (by simpa using hg)⟩
            · left
              rw [geocodeCacheStep, hg] at h
              rwa [alookup_aset_other cache name n c hn] at h
  · intro h
    rcases h with h | h <;> simp [geocodeCacheStep, h]

/--
**C9** witness: a call whose parse yields NaN latitude writes nothing (the
cache stays empty and the suburb stays unresolved), and a pre-existing entry
is only explained by the cache itself.
-/
theorem claim_C9_cache_writes_witness :
    geocodeCacheStep [] "Avalon" (.results [{ lat := "abc", lon := "144.5" }]) = [] :=
  (claim_C9_cache_writes [] "Avalon" (.results [{ lat := "abc", lon := "144.5" }])).2
    (Or.inr (by decide))

/--
**C9** counterexample to the original claim: a response whose latitude
string is `Infinity` passes the NaN-only guard, so a non-finite coordinate
pair is written to the durable cache — the claimed "finite parsed numbers"
invariant fails.
-/
theorem claim_C9_counterexample :
    (alookup (geocodeCacheStep [] "Avalon"
        (.results [{ lat := "Infinity", lon := "144.5" }])) "Avalon").map
      (fun e => isFiniteNum e.1) = some false := by
  decide

/-! ### Geocode-fill run counting (C5)

Run-level model of `main` + `mergeCacheIntoSuburbs` (lines 92-167).  The
`geocode` call is abstracted by its returned value (`none` covering non-2xx,
thrown, empty and NaN outcomes, as established for C9); one external call is
issued per processed suburb. -/

/-- `!s.coords || s.coords.length !== 2` — the "missing coordinates"
filter. -/
def suburbMissingCoords (s : SuburbRecord) : Bool :=
  match s.coords with
  | none => true
  | some l => l.length ≠ 2

/-- Cache effect of the geocode loop over a list of suburb names. -/
def geocodeLoop (oracle : String → Option (ℚ × ℚ)) :
    List String → List (String × (ℚ × ℚ)) → List (String × (ℚ × ℚ))
  | [], cache => cache
  | n :: rest, cache =>
      geocodeLoop oracle rest
        (match oracle n with
         | some c => aset cache n c
         | none => cache)

/-- `mergeCacheIntoSuburbs(suburbs, cache)`: for every cached name whose
suburb still lacks valid coordinates, set `coords = [lat, lon]`. -/
def mergeCacheIntoSuburbs (subs : List (String × SuburbRecord))
    (cache : List (String × (ℚ × ℚ))) : List (String × SuburbRecord) :=
  cache.foldl
    (fun acc p =>
      aupdate
        (fun s => if suburbMissingCoords s then { s with coords := some [p.2.1, p.2.2] }
                  else s)
        acc p.1)
    subs

/-- One full run of the geocode-fill stage: filter missing, drop cached,
apply the optional `--limit`, geocode each remaining name (one external call
each — the third component counts them), then merge the cache into the
dataset. -/
def geocodeFillRun (subs : List (String × SuburbRecord))
    (cache : List (String × (ℚ × ℚ))) (oracle : String → Option (ℚ × ℚ))
    (limit : Option Nat) :
    List (String × SuburbRecord) × List (String × (ℚ × ℚ)) × Nat :=
  let missing := (subs.filter (fun p => suburbMissingCoords p.2)).map Prod.fst
  let toProcess := missing.filter (fun n => (alookup cache n).isNone)
  let total := match limit with
    | some l => min l toProcess.length
    | none => toProcess.length
  let cache2 := geocodeLoop oracle (toProcess.take total) cache
  (mergeCacheIntoSuburbs subs cache2, cache2, total)

theorem alookup_isSome_aset {α : Type} (l : List (String × α)) (n m : String) (v : α)
    (h : (alookup l n).isSome) : (alookup (aset l m v) n).isSome := by
  by_cases hnm : n = m
  · subst hnm; rw [alookup_aset_same]; rfl
  · rwa [alookup_aset_other l m n v hnm]

theorem geocodeLoop_mono (oracle : String → Option (ℚ × ℚ)) :
    ∀ (l : List String) (cache : List (String × (ℚ × ℚ))) (n : String),
      (alookup cache n).isSome → (alookup (geocodeLoop oracle l cache) n).isSome := by
  intro l
  induction l with
  | nil => intro cache n h; simpa [geocodeLoop] using h
  | cons m rest ih =>
      intro cache n h
      simp only [geocodeLoop]
      cases ho : oracle m with
      | none => exact ih cache n h
      | some c => exact ih _ n (alookup_isSome_aset cache n m c h)

theorem geocodeLoop_covers (oracle : String → Option (ℚ × ℚ)) :
    ∀ (l : List String) (cache : List (String × (ℚ × ℚ))) (n : String),
      n ∈ l → (oracle n).isSome →
      (alookup (geocodeLoop oracle l cache) n).isSome := by
  intro l
  induction l with
  | nil => intro cache n h; simp at h
  | cons m rest ih =>
      intro cache n hmem hsome
      rcases List.mem_cons.mp hmem with heq | hrest
      · subst heq
        simp only [geocodeLoop]
        cases ho : oracle n with
        | none => rw [ho] at hsome; cases hsome
        | some c =>
            refine geocodeLoop_mono oracle rest _ n ?_
            rw [alookup_aset_same]; rfl
      · simp only [geocodeLoop]
        cases ho : oracle m with
        | none => exact ih cache n hrest hsome
        | some c => exact ih _ n hrest hsome

/--
**C5** (amended).  Running the geocode-fill stage twice (no `--limit`) over
the same set of suburbs lacking valid coordinates issues exactly one
external geocoding call per such suburb in total, provided every geocode
call of the first run returns a result: the first run issues one call per
missing suburb and caches them all, and the second run finds every one in
the durable cache and issues zero calls.  (Without the success proviso the
claim fails: a suburb whose geocode returns no result is not cached and is
called again on the second run — see the counterexample.)
-/
theorem claim_C5_geocode_idempotent (subs : List (String × SuburbRecord))
    (oracle : String → Option (ℚ × ℚ))
    (hsucc : ∀ n ∈ (subs.filter (fun p => suburbMissingCoords p.2)).map Prod.fst,
        (oracle n).isSome) :
    (geocodeFillRun subs [] oracle none).2.2 =
      ((subs.filter (fun p => suburbMissingCoords p.2)).map Prod.fst).length ∧
    (geocodeFillRun subs (geocodeFillRun subs [] oracle none).2.1 oracle none).2.2 = 0 := by
  set missing := (subs.filter (fun p => suburbMissingCoords p.2)).map Prod.fst with hm
  have hfilter1 : missing.filter (fun n => (alookup ([] : List (String × (ℚ × ℚ))) n).isNone) =
      missing := by
    apply List.filter_eq_self.mpr
    intro a _
    simp [alookup]
  constructor
  · simp only [geocodeFillRun, ← hm, hfilter1]
  · simp only [geocodeFillRun, ← hm, hfilter1]
    have hcov : ∀ n ∈ missing,
        (alookup (geocodeLoop oracle (missing.take missing.length) []) n).isSome := by
      intro n hn
      rw [List.take_length]
      exact geocodeLoop_covers oracle missing [] n hn (hsucc n hn)
    have hempty : missing.filter
        (fun n => (alookup (geocodeLoop oracle (missing.take missing.length) []) n).isNone) =
        [] := by
      apply List.filter_eq_nil_iff.mpr
      intro a ha
      have := hcov a ha
      simp only [Option.isNone]
      cases hx : alookup (geocodeLoop oracle (missing.take missing.length) []) a with
      | none => rw [hx] at this; cases this
      | some v => simp
    rw [hempty]
    simp

/--
**C5** witness: a single missing suburb with a succeeding geocode — one call
on the first run, zero on the second.
-/
theorem claim_C5_geocode_idempotent_witness :
    (geocodeFillRun [("Avalon", vpsrStubBase)] [] (fun _ => some (1, 2)) none).2.2 = 1 ∧
    (geocodeFillRun [("Avalon", vpsrStubBase)]
        (geocodeFillRun [("Avalon", vpsrStubBase)] [] (fun _ => some (1, 2)) none).2.1
        (fun _ => some (1, 2)) none).2.2 = 0 :=
  claim_C5_geocode_idempotent [("Avalon", vpsrStubBase)] (fun _ => some (1, 2))
    (by intro n _; rfl)

/--
**C5** counterexample to the claim as stated: when the geocode call for the
single missing suburb returns no result, nothing is cached, and the second
run issues one call again — two calls in total for that suburb, and the
second run does not issue zero calls.
-/
theorem claim_C5_counterexample :
    (geocodeFillRun [("Avalon", vpsrStubBase)] [] (fun _ => none) none).2.2 = 1 ∧
    (geocodeFillRun [("Avalon", vpsrStubBase)]
        (geocodeFillRun [("Avalon", vpsrStubBase)] [] (fun _ => none) none).2.1
        (fun _ => none) none).2.2 = 1 ∧
    ¬((geocodeFillRun [("Avalon", vpsrStubBase)]
        (geocodeFillRun [("Avalon", vpsrStubBase)] [] (fun _ => none) none).2.1
        (fun _ => none) none).2.2 = 0) :=
  ⟨rfl, rfl, by decide⟩

/-! ### Price-fill stage (`scripts/fetch-reiv-prices.js` and
`scripts/fetch-reiv-prices-with-units.js`)

Both scripts select

    const missing = Object.entries(suburbs.suburbs)
      .filter(([, s]) => s.reivSlug && s.medianPrice == null).map(([name]) => name);

iterate the first `total` of them, and per record — when the fetched data
passes the script's guard — set `medianPrice` (stamping
`priceHistory['2025']`), `medianPriceUnit` and `annualChange` from the
non-null fetched fields.  Finally `metadata.notes` is rewritten:

    suburbs.metadata.notes = (notes || '').replace(...Prices-from-REIV..., '').trim();
    suburbs.metadata.notes = (notes || '') + ' Prices from REIV ...';

The fetch is abstracted by an oracle from the slug: the plain script's
`fetchREIVPrices` yields null (covered by `none`, as is a thrown error)
or a data record; the Puppeteer variant always yields a record that may
carry an `_error` marker. -/

structure ReivPriceData where
  medianPrice : Option Int
  medianPriceUnit : Option Int
  annualChange : Option ℚ
deriving DecidableEq, Repr

structure ReivPuppetData where
  medianPrice : Option Int
  medianPriceUnit : Option Int
  annualChange : Option ℚ
  err : Option String
deriving DecidableEq, Repr

/-- `s.reivSlug && s.medianPrice == null` (a missing or empty slug is
falsy). -/
def priceFillEligible (s : SuburbRecord) : Bool :=
  (match s.reivSlug with
   | some x => x ≠ ""
   | none => false) && s.medianPrice.isNone

/-- The per-record update both scripts perform on data that passed their
guard. -/
def applyPriceData (mp mpu : Option Int) (ac : Option ℚ) (s : SuburbRecord) :
    SuburbRecord :=
  let s1 :=
    match mp with
    | some v => { s with medianPrice := some v, priceHistory := aset s.priceHistory "2025" v }
    | none => s
  let s2 :=
    match mpu with
    | some v => { s1 with medianPriceUnit := some v }
    | none => s1
  match ac with
  | some v => { s2 with annualChange := some v }
  | none => s2

/-- The literal of the notes-cleanup pattern `\s*Prices from REIV[^.]*\.?`. -/
def reivNotesLit : List Char := "Prices from REIV".toList

/-- `notes.replace(/\s*Prices from REIV[^.]*\.?/g, '')`: leftmost-to-right
global removal; a match starts wherever skipping whitespace reaches the
literal, and extends over non-dot characters plus one optional dot.
Fuelled — every step consumes at least one character. -/
def stripReivNotesF : Nat → List Char → List Char
  | 0, l => l
  | _ + 1, [] => []
  | fuel + 1, c :: t =>
      let sp := (c :: t).dropWhile isSpaceJS
      if reivNotesLit.isPrefixOf sp then
        let rest1 := (sp.drop reivNotesLit.length).dropWhile (fun x => x ≠ '.')
        let rest2 := match rest1 with
          | '.' :: u => u
          | u => u
        stripReivNotesF fuel rest2
      else c :: stripReivNotesF fuel t

def stripReivNotes (cs : List Char) : List Char :=
  stripReivNotesF cs.length cs

/-- The two-assignment notes rewrite, with the script-specific appended
sentence. -/
def priceFillNotes (notes : String) (suffix : String) : String :=
  (trimJS (stripReivNotes notes.toList)).asString ++ suffix

/-- Update loop of `fetch-reiv-prices.js` (guard:
`data && (data.medianPrice != null || data.medianPriceUnit != null)`). -/
def priceFillLoop1 (oracle : String → Option ReivPriceData) :
    List String → List (String × SuburbRecord) → List (String × SuburbRecord)
  | [], subs => subs
  | n :: rest, subs =>
      priceFillLoop1 oracle rest
        (match alookup subs n with
         | none => subs
         | some sub =>
             match oracle (sub.reivSlug.getD "") with
             | none => subs
             | some d =>
                 if d.medianPrice.isSome || d.medianPriceUnit.isSome then
                   aupdate (applyPriceData d.medianPrice d.medianPriceUnit d.annualChange)
                     subs n
                 else subs)

/-- Update loop of `fetch-reiv-prices-with-units.js` (checks `data._error`
first, then the same non-null guard). -/
def priceFillLoop2 (oracle : String → ReivPuppetData) :
    List String → List (String × SuburbRecord) → List (String × SuburbRecord)
  | [], subs => subs
  | n :: rest, subs =>
      priceFillLoop2 oracle rest
        (match alookup subs n with
         | none => subs
         | some sub =>
             let d := oracle (sub.reivSlug.getD "")
             if d.err.isSome then subs
             else if d.medianPrice.isSome || d.medianPriceUnit.isSome then
               aupdate (applyPriceData d.medianPrice d.medianPriceUnit d.annualChange)
                 subs n
             else subs)

def priceFillSuffix1 : String := " Prices from REIV where VPSR not available."

def priceFillSuffix2 : String := " Prices from REIV (House + Unit tabs) where VPSR not available."

/-- One run of `fetch-reiv-prices.js` over the dataset. -/
def priceFillRun1 (ds : Dataset) (oracle : String → Option ReivPriceData)
    (limit : Option Nat) : Dataset :=
  let missing := (ds.suburbs.filter (fun p => priceFillEligible p.2)).map Prod.fst
  let total := match limit with
    | some l => min l missing.length
    | none => missing.length
  { suburbs := priceFillLoop1 oracle (missing.take total) ds.suburbs
    metadata := { ds.metadata with
                  notes := priceFillNotes ds.metadata.notes priceFillSuffix1 } }

/-- One run of `fetch-reiv-prices-with-units.js` over the dataset. -/
def priceFillRun2 (ds : Dataset) (oracle : String → ReivPuppetData)
    (limit : Option Nat) : Dataset :=
  let missing := (ds.suburbs.filter (fun p => priceFillEligible p.2)).map Prod.fst
  let total := match limit with
    | some l => min l missing.length
    | none => missing.length
  { suburbs := priceFillLoop2 oracle (missing.take total) ds.suburbs
    metadata := { ds.metadata with
                  notes := priceFillNotes ds.metadata.notes priceFillSuffix2 } }

theorem priceFillLoop1_frame (oracle : String → Option ReivPriceData) :
    ∀ (l : List String) (subs : List (String × SuburbRecord)) (name : String),
      name ∉ l → alookup (priceFillLoop1 oracle l subs) name = alookup subs name := by
  intro l
  induction l with
  | nil => intro subs name _; rfl
  | cons n rest ih =>
      intro subs name hnot
      have hne : name ≠ n := fun h => hnot (h ▸ List.mem_cons_self n rest)
      have hrest : name ∉ rest := fun h => hnot (List.mem_cons_of_mem n h)
      simp only [priceFillLoop1]
      rw [ih _ name hrest]
      split
      · rfl
      · split
        · rfl
        · split
          · exact alookup_aupdate_other _ _ n name hne
          · rfl

theorem priceFillLoop2_frame (oracle : String → ReivPuppetData) :
    ∀ (l : List String) (subs : List (String × SuburbRecord)) (name : String),
      name ∉ l → alookup (priceFillLoop2 oracle l subs) name = alookup subs name := by
  intro l
  induction l with
  | nil => intro subs name _; rfl
  | cons n rest ih =>
      intro subs name hnot
      have hne : name ≠ n := fun h => hnot (h ▸ List.mem_cons_self n rest)
      have hrest : name ∉ rest := fun h => hnot (List.mem_cons_of_mem n h)
      simp only [priceFillLoop2]
      rw [ih _ name hrest]
      split
      · rfl
      · split
        · rfl
        · split
          · exact alookup_aupdate_other _ _ n name hne
          · rfl

theorem alookup_eq_of_mem_nodup {α : Type} :
    ∀ (l : List (String × α)) (k : String) (v : α),
      (l.map Prod.fst).Nodup → (k, v) ∈ l → alookup l k = some v := by
  intro l
  induction l with
  | nil => intro k v _ hmem; simp at hmem
  | cons p t ih =>
      intro k v hnodup hmem
      obtain ⟨a, b⟩ := p
      simp only [List.map_cons, List.nodup_cons] at hnodup
      rcases List.mem_cons.mp hmem with heq | hrest
      · have hk : k = a := congrArg Prod.fst heq
        have hv : v = b := congrArg Prod.snd heq
        subst hk; subst hv
        simp [alookup]
      · have hka : a ≠ k := by
          intro hcontra
          exact hnodup.1 (hcontra ▸ List.mem_map_of_mem Prod.fst hrest)
        simp only [alookup, hka, if_false]
        exact ih k v hnodup.2 hrest

/--
**C10** (confirmed).  For both price-fill scripts: a run only ever mutates
suburb records that at the start of the run have a truthy (non-empty)
`reivSlug` and a null `medianPrice` — every other suburb record is returned
unchanged — and the only metadata change is the rewritten `notes` field
(dataset keys being unique, as they are for a JS object).
-/
theorem claim_C10_price_fill_frame (ds : Dataset)
    (oracle1 : String → Option ReivPriceData) (oracle2 : String → ReivPuppetData)
    (limit1 limit2 : Option Nat)
    (hnodup : (ds.suburbs.map Prod.fst).Nodup) :
    (∀ name s, alookup ds.suburbs name = some s → priceFillEligible s = false →
        alookup (priceFillRun1 ds oracle1 limit1).suburbs name = some s) ∧
    (priceFillRun1 ds oracle1 limit1).metadata =
      { ds.metadata with notes := priceFillNotes ds.metadata.notes priceFillSuffix1 } ∧
    (∀ name s, alookup ds.suburbs name = some s → priceFillEligible s = false →
        alookup (priceFillRun2 ds oracle2 limit2).suburbs name = some s) ∧
    (priceFillRun2 ds oracle2 limit2).metadata =
      { ds.metadata with notes := priceFillNotes ds.metadata.notes priceFillSuffix2 } := by
  have hnotmem : ∀ name s, alookup ds.suburbs name = some s →
      priceFillEligible s = false →
      name ∉ (ds.suburbs.filter (fun p => priceFillEligible p.2)).map Prod.fst := by
    intro name s hlook hnel hmem
    obtain ⟨p, hpfil, hpfst⟩ := List.mem_map.mp hmem
    obtain ⟨hpmem, hpel⟩ := List.mem_filter.mp hpfil
    obtain ⟨a, b⟩ := p
    subst hpfst
    have : alookup ds.suburbs a = some b := alookup_eq_of_mem_nodup ds.suburbs a b hnodup hpmem
    rw [hlook] at this
    injection this with hb
    rw [← hb] at hpel
    rw [hnel] at hpel
    cases hpel
  refine ⟨?_, rfl, ?_, rfl⟩
  · intro name s hlook hnel
    have h1 : name ∉ ((ds.suburbs.filter (fun p => priceFillEligible p.2)).map Prod.fst).take
        (match limit1 with
         | some l => min l ((ds.suburbs.filter (fun p => priceFillEligible p.2)).map Prod.fst).length
         | none => ((ds.suburbs.filter (fun p => priceFillEligible p.2)).map Prod.fst).length) :=
      fun hmem => hnotmem name s hlook hnel (List.take_subset _ _ hmem)
    rw [show (priceFillRun1 ds oracle1 limit1).suburbs =
        priceFillLoop1 oracle1 _ ds.suburbs from rfl]
    rw [priceFillLoop1_frame oracle1 _ ds.suburbs name h1]
    exact hlook
  · intro name s hlook hnel
    have h1 : name ∉ ((ds.suburbs.filter (fun p => priceFillEligible p.2)).map Prod.fst).take
        (match limit2 with
         | some l => min l ((ds.suburbs.filter (fun p => priceFillEligible p.2)).map Prod.fst).length
         | none => ((ds.suburbs.filter (fun p => priceFillEligible p.2)).map Prod.fst).length) :=
      fun hmem => hnotmem name s hlook hnel (List.take_subset _ _ hmem)
    rw [show (priceFillRun2 ds oracle2 limit2).suburbs =
        priceFillLoop2 oracle2 _ ds.suburbs from rfl]
    rw [priceFillLoop2_frame oracle2 _ ds.suburbs name h1]
    exact hlook

/-- A concrete ineligible record (already has a median price). -/
def c10Resolved : SuburbRecord :=
  { c1Suburb with reivSlug := some "kew" }

/-- A concrete eligible record. -/
def c10Pending : SuburbRecord :=
  { vpsrStubBase with reivSlug := some "avalon" }

def c10Dataset : Dataset :=
  { suburbs := [("Kew", c10Resolved), ("Avalon", c10Pending)], metadata := c1Metadata }

/--
**C10** witness: in a dataset with one resolved and one pending suburb, both
script runs leave the resolved record untouched, whatever the fetches
return.
-/
theorem claim_C10_price_fill_frame_witness :
    alookup (priceFillRun1 c10Dataset
        (fun _ => some { medianPrice := some 900000, medianPriceUnit := none,
                         annualChange := none }) none).suburbs "Kew" = some c10Resolved ∧
    alookup (priceFillRun2 c10Dataset
        (fun _ => { medianPrice := some 900000, medianPriceUnit := none,
                    annualChange := none, err := none }) none).suburbs "Kew" =
      some c10Resolved := by
  have h := claim_C10_price_fill_frame c10Dataset
    (fun _ => some { medianPrice := some 900000, medianPriceUnit := none,
                     annualChange := none })
    (fun _ => { medianPrice := some 900000, medianPriceUnit := none,
                annualChange := none, err := none })
    none none (by simp [c10Dataset])
  exact ⟨h.1 "Kew" c10Resolved rfl (by decide), h.2.2.1 "Kew" c10Resolved rfl (by decide)⟩

/-! ### Geocode rate gating (C3)

External-call traces.  `scripts/geocode-missing-suburbs.js` issues its
Nominatim calls in a sequential loop with `await sleep(DELAY_MS)` between
consecutive iterations (line 143).  The `/api/transit-to-southern-cross`
handler (`server.js` 486-596) issues, per request, a Nominatim geocode call,
an Overpass call and two OSRM routing calls, with no sleep or other rate
gate anywhere in `server.js`; two back-to-back requests therefore produce
two geocode calls with no enforced delay between them. -/

inductive CallEvent
  | geocodeCall
  | overpassCall
  | routeCall
  | sleepEv (ms : Nat)
deriving DecidableEq, Repr

/-- `DELAY_MS = 1100` (Nominatim policy comment in the script). -/
def DELAY_MS : Nat := 1100

/-- Does a trace respect a minimum inter-geocode-call delay `d`, i.e. do at
least `d` ms of sleeps separate every pair of consecutive geocode calls?
State: ms slept since the last geocode call, and whether one occurred. -/
def gapOk (d : Nat) : List CallEvent → Nat → Bool → Bool
  | [], _, _ => true
  | .sleepEv m :: t, acc, seen => gapOk d t (acc + m) seen
  | .geocodeCall :: t, acc, seen => (!seen || d ≤ acc) && gapOk d t 0 true
  | _ :: t, acc, seen => gapOk d t acc seen

def rateGated (d : Nat) (tr : List CallEvent) : Bool := gapOk d tr 0 false

def countGeocodeCalls (tr : List CallEvent) : Nat :=
  tr.foldl (fun k e => match e with | .geocodeCall => k + 1 | _ => k) 0

/-- External calls of one transit-profile request, in program order (the two
OSRM calls run concurrently via `Promise.all`; neither is a geocode call, so
their order is immaterial to the gate). -/
def transitHandlerEvents : List CallEvent :=
  [.geocodeCall, .overpassCall, .routeCall, .routeCall]

/-- External calls of a geocode-fill run over `n` suburbs: one geocode call
per suburb, `sleep(DELAY_MS)` between consecutive iterations (none after the
last). -/
def batchGeocodeEvents : Nat → List CallEvent
  | 0 => []
  | 1 => [.geocodeCall]
  | n + 2 => .geocodeCall :: .sleepEv DELAY_MS :: batchGeocodeEvents (n + 1)

theorem batchGeocodeEvents_gapOk :
    ∀ n, gapOk DELAY_MS (batchGeocodeEvents n) DELAY_MS true = true := by
  intro n
  induction n using batchGeocodeEvents.induct with
  | case1 => rfl
  | case2 => simp [batchGeocodeEvents, gapOk]
  | case3 n ih =>
      simp only [batchGeocodeEvents, gapOk]
      simpa [Nat.zero_add] using ih

/--
**C3** (amended).  Only the batch geocode-fill loop is rate-gated: within a
run it sleeps `DELAY_MS = 1100` ms between consecutive geocode calls, so its
trace satisfies the minimum inter-call-delay gate for every batch size.  The
transit-profile endpoint's geocode call passes through no rate gate at all:
the trace of two back-to-back endpoint requests contains two geocode calls
with no sleep between them and violates the gate — there is no single global
rate gate shared by all geocoding callers.
-/
theorem claim_C3_rate_gate (n : Nat) :
    rateGated DELAY_MS (batchGeocodeEvents n) = true ∧
    rateGated DELAY_MS (transitHandlerEvents ++ transitHandlerEvents) = false ∧
    countGeocodeCalls (transitHandlerEvents ++ transitHandlerEvents) = 2 := by
  refine ⟨?_, by decide, by decide⟩
  cases n with
  | zero => rfl
  | succ m =>
      cases m with
      | zero => rfl
      | succ k =>
          simp only [rateGated, batchGeocodeEvents, gapOk]
          simpa using batchGeocodeEvents_gapOk (k + 1)

/--
**C3** counterexample to the claim as stated: the concrete system trace of
two consecutive transit-profile requests carries two external geocoding
calls and fails the minimum-delay gate — so not every geocode call from
every caller passes through a global rate gate.
-/
theorem claim_C3_counterexample :
    countGeocodeCalls (transitHandlerEvents ++ transitHandlerEvents) = 2 ∧
    rateGated DELAY_MS (transitHandlerEvents ++ transitHandlerEvents) = false := by
  exact ⟨by decide, by decide⟩

end MelbProps
